import Mathlib

/-!
Verification of `toolkit_theme.py` (repository RyCode).

Shallow embedding of the theme registry module `src/toolkit_theme.py`:
three constant string-to-string tables (`toolkit_theme`, `STATUS_ICONS`,
`PROGRESS_BAR_STYLE`), the console factory `get_console`, and the two
printing helpers `print_status` and `print_section`.

A Python `dict` with string keys is embedded as an association list with
unique keys; `dict.get(key, default)` is `dictGet`.  The external Rich
console is opaque: a call `console.print(text, style=style)` is recorded
as a `Write` value, so each helper denotes the list of writes it performs.
Python constructor calls return fresh objects, so `get_console` is
parameterised by an allocation counter that yields the object identity.

Note on string contents: the icon glyphs in the source file are stored as
cp1252-mojibake of the intended emoji (the file holds, e.g., the three
characters U+00E2 U+0153 U+2026 where the docstring's examples intend
U+2705).  The tables below reproduce the file's characters exactly,
written with explicit escapes.
-/

namespace RyCode

/-- The style table `toolkit_theme` (lines 29-79 of `toolkit_theme.py`):
semantic style name to style specification string, in source order. -/
def toolkit_theme : List (String × String) := [
  ("success", "bold #00FF88"),
  ("warning", "bold #FFD166"),
  ("error", "bold #FF5555"),
  ("info", "bold #00AEEF"),
  ("context", "#00AEEF"),
  ("comment", "dim #7B7F8B"),
  ("meta", "italic #7B7F8B"),
  ("educational", "#B26FFF"),
  ("diff.add", "black on #00FF88"),
  ("diff.remove", "black on #FF4C6A"),
  ("diff.context", "#E0E0E0"),
  ("prompt", "bold #00AEEF"),
  ("title", "bold #00AEEF"),
  ("subtitle", "#7B7F8B"),
  ("file", "#00AEEF"),
  ("path", "#00FF88"),
  ("code.keyword", "#00AEEF"),
  ("code.function", "#00FF88"),
  ("code.string", "#FFD166"),
  ("code.number", "#B26FFF"),
  ("code.comment", "#7B7F8B"),
  ("code.type", "#00AEEF"),
  ("code.operator", "#00FF88"),
  ("progress.description", "#E0E0E0"),
  ("progress.percentage", "#00FF88"),
  ("progress.download", "#00AEEF"),
  ("progress.remaining", "#7B7F8B"),
  ("table.header", "bold #00AEEF"),
  ("table.border", "#3A3A3A"),
  ("table.cell", "#E0E0E0"),
  ("link", "underline #00FF88"),
  ("highlight", "reverse #00FF88"),
  ("emphasis", "#FFD166"),
  ("strong", "bold #00FF88")]

/-- The icon table `STATUS_ICONS` (lines 82-93): status kind to glyph.
The glyph strings are exactly the characters stored in the source file
(cp1252-mojibake of the intended emoji), written as unicode escapes. -/
def STATUS_ICONS : List (String × String) := [
  ("success", "\u00e2\u0153\u2026"),
  ("warning", "\u00e2\u0161\u00a0\u00ef\u00b8"),
  ("error", "\u00e2\u0152"),
  ("info", "\u00f0\u0178\u2019\u00a1"),
  ("context", "\u00f0\u0178\u00a7\u00a9"),
  ("learning", "\u00f0\u0178\u2019\u00a1"),
  ("drift", "\u00e2\u0161\u00a0\u00ef\u00b8"),
  ("ship", "\u00f0\u0178\u0161\u20ac"),
  ("thought", "\u00f0\u0178\u00a7\u00a0"),
  ("lambda", "\u00ce\u00bb")]

/-- The progress-bar style table `PROGRESS_BAR_STYLE` (lines 96-101). -/
def PROGRESS_BAR_STYLE : List (String × String) := [
  ("bar.complete", "#00FF88"),
  ("bar.finished", "#00FF88"),
  ("bar.pulse", "#00AEEF"),
  ("progress.elapsed", "#7B7F8B")]

/-- Python `d.get(key, default)`: the value bound to `key`, or `default`
when `key` is absent.  Total; never raises. -/
def dictGet (d : List (String × String)) (key default : String) : String :=
  match d.find? (fun kv => kv.1 == key) with
  | some kv => kv.2
  | none => default

/-- The keys of a table, in order (Python `d.keys()`). -/
def dictKeys (d : List (String × String)) : List String :=
  d.map Prod.fst

/-- The icon lookup used by `print_status` (line 122 of the source:
`STATUS_ICONS.get(status, "")`), named `resolve_icon` in the spec. -/
def resolve_icon (status : String) : String :=
  dictGet STATUS_ICONS status ""

/-- One call `console.print(text, style=style)` on the external console. -/
structure Write where
  text : String
  style : String
deriving DecidableEq, Repr

/-- A Rich `Console` instance: its allocation identity (Python object
identity; a fresh one per constructor call) and its configuration
(`theme=` and `highlight=` constructor arguments). -/
structure Console where
  id : Nat
  theme : List (String × String)
  highlight : Bool
deriving DecidableEq, Repr

/-- `get_console()` (lines 103-111): `Console(theme=toolkit_theme,
highlight=False)`.  `fresh` is the allocation counter at the call, giving
the identity of the newly constructed object. -/
def get_console (fresh : Nat) : Console :=
  ⟨fresh, toolkit_theme, false⟩

/-- `print_status(message, status)` (lines 113-124; the Python default for
`status` is `"info"`): one write of `f"{icon} {message}"` with
`icon = STATUS_ICONS.get(status, "")` and style `status`. -/
def print_status (message : String) (status : String) : List Write :=
  [⟨dictGet STATUS_ICONS status "" ++ " " ++ message, status⟩]

/-- `print_section(title, body)` (lines 126-137; the Python default for
`body` is `""`): one write of `f"\n{title}"` styled `"title"`, then, when
`body` is truthy (non-empty), one write of `body` styled `"context"`. -/
def print_section (title : String) (body : String) : List Write :=
  ⟨"\n" ++ title, "title"⟩ ::
    (if body = "" then [] else [⟨body, "context"⟩])

/-- A call into the module, for reasoning about sequences of calls. -/
inductive Op where
  | getConsole
  | printStatus (message status : String)
  | printSection (title body : String)
deriving DecidableEq, Repr

/-- Module-level state: the three global tables, the log of writes made to
the terminal so far, and the allocation counter for constructed consoles. -/
structure ModuleState where
  theme : List (String × String)
  icons : List (String × String)
  barStyle : List (String × String)
  log : List Write
  nextId : Nat
deriving DecidableEq, Repr

/-- The state after module load: the three tables as written in the
source, nothing printed, no console constructed yet. -/
def initState : ModuleState :=
  ⟨toolkit_theme, STATUS_ICONS, PROGRESS_BAR_STYLE, [], 0⟩

/-- One call, as the source performs it: each helper constructs a fresh
console (bumping the counter) and appends its writes to the log; no
operation touches the three tables. -/
def runOp (s : ModuleState) : Op → ModuleState
  | .getConsole =>
      ⟨s.theme, s.icons, s.barStyle, s.log, s.nextId + 1⟩
  | .printStatus message status =>
      ⟨s.theme, s.icons, s.barStyle,
       s.log ++ [⟨dictGet s.icons status "" ++ " " ++ message, status⟩],
       s.nextId + 1⟩
  | .printSection title body =>
      ⟨s.theme, s.icons, s.barStyle,
       s.log ++ (⟨"\n" ++ title, "title"⟩ ::
         (if body = "" then [] else [⟨body, "context"⟩])),
       s.nextId + 1⟩

/-- A sequence of calls, left to right. -/
def run (s : ModuleState) : List Op → ModuleState
  | [] => s
  | op :: ops => run (runOp s op) ops

/-- The claim-side reading of "contains a color token": the style
specification mentions a hex color marker `#`. -/
def hasColorToken (s : String) : Bool :=
  s.data.contains (Char.ofNat 35)

/-- A lookup with a key absent from the table yields the default. -/
theorem dictGet_of_not_mem (d : List (String × String)) (key default : String)
    (h : key ∉ dictKeys d) : dictGet d key default = default := by
  have hf : d.find? (fun kv => kv.1 == key) = none := by
    rw [List.find?_eq_none]
    intro kv hkv hbeq
    exact h (by
      simp only [dictKeys, List.mem_map]
      exact ⟨kv, hkv, by simpa using hbeq⟩)
  simp [dictGet, hf]

/-- Claim C1: For every message string, `print_status(message,
"nonexistent_status")` with a status kind in neither the icon table nor
the style table performs exactly one console write, of the text
`" " ++ message` (empty icon, leading space preserved) — and, being a
total function, does not raise. -/
theorem print_status_unknown_kind (message status : String)
    (hIcon : status ∉ dictKeys STATUS_ICONS)
    (_hStyle : status ∉ dictKeys toolkit_theme) :
    print_status message status = [⟨" " ++ message, status⟩] := by
  simp [print_status, dictGet_of_not_mem STATUS_ICONS status "" hIcon]

/-- Witness for C1 at the spec's concrete input. -/
theorem print_status_unknown_kind_witness :
    "nonexistent_status" ∉ dictKeys STATUS_ICONS ∧
    "nonexistent_status" ∉ dictKeys toolkit_theme ∧
    print_status "Unknown thing" "nonexistent_status" =
      [⟨" Unknown thing", "nonexistent_status"⟩] :=
  ⟨by decide, by decide,
   print_status_unknown_kind "Unknown thing" "nonexistent_status"
     (by decide) (by decide)⟩

/-- Claim C2, the code evaluated at the failing input: The claim expects
`print_status("Phase 3 Complete", "success")` to write
`"✅ Phase 3 Complete"` (icon U+2705); the icon table in the source
file instead stores the mojibake string U+00E2 U+0153 U+2026 for
`"success"`, so the code writes a different text. -/
theorem print_status_success_mojibake :
    print_status "Phase 3 Complete" "success" =
      [⟨"âœ… Phase 3 Complete", "success"⟩] ∧
    print_status "Phase 3 Complete" "success" ≠
      [⟨"✅ Phase 3 Complete", "success"⟩] := by
  exact ⟨by decide, by decide⟩

/-- Claim C3: `print_section(title, body)` performs exactly one write when
`body` is empty — the text `"\n" ++ title` (blank line then the title)
styled `"title"` — and exactly one further write of `body` styled
`"context"` when `body` is non-empty. -/
theorem print_section_writes (title body : String) :
    (body = "" → print_section title body = [⟨"\n" ++ title, "title"⟩]) ∧
    (body ≠ "" → print_section title body =
      [⟨"\n" ++ title, "title"⟩, ⟨body, "context"⟩]) := by
  constructor
  · intro h
    simp [print_section, h]
  · intro h
    simp [print_section, h]

/-- Witness for C3 at the spec's concrete inputs. -/
theorem print_section_writes_witness :
    print_section "Title" "" = [⟨"\n" ++ "Title", "title"⟩] ∧
    print_section "Title" "Body text" =
      [⟨"\n" ++ "Title", "title"⟩, ⟨"Body text", "context"⟩] :=
  ⟨(print_section_writes "Title" "").1 rfl,
   (print_section_writes "Title" "Body text").2 (by decide)⟩

/-- Claim C4: For every key bound in the icon table, `resolve_icon` returns
the glyph the table maps it to; for every key not in the table it returns
the empty string — and, being a total function, never raises. -/
theorem resolve_icon_contract (key : String) :
    (∀ glyph, (key, glyph) ∈ STATUS_ICONS → resolve_icon key = glyph) ∧
    (key ∉ dictKeys STATUS_ICONS → resolve_icon key = "") := by
  constructor
  · intro glyph h
    fin_cases h <;> rfl
  · intro h
    exact dictGet_of_not_mem STATUS_ICONS key "" h

/-- Witness for C4: a present key and an absent key. -/
theorem resolve_icon_contract_witness :
    ("drift", "âš ï¸") ∈ STATUS_ICONS ∧
    resolve_icon "drift" = "âš ï¸" ∧
    "missing_kind" ∉ dictKeys STATUS_ICONS ∧
    resolve_icon "missing_kind" = "" :=
  ⟨by decide,
   (resolve_icon_contract "drift").1 _ (by decide),
   by decide,
   (resolve_icon_contract "missing_kind").2 (by decide)⟩

/-- Claim C5: Every call to `get_console` yields a console configured with
the style table as theme and highlighting disabled; any two calls agree
in configuration, and distinct calls (distinct allocation counters)
yield distinct instances — never a cached one. -/
theorem get_console_fresh_identical (n m : Nat) :
    (get_console n).theme = toolkit_theme ∧
    (get_console n).highlight = false ∧
    (get_console n).theme = (get_console m).theme ∧
    (get_console n).highlight = (get_console m).highlight ∧
    (n ≠ m → (get_console n).id ≠ (get_console m).id) :=
  ⟨rfl, rfl, rfl, rfl, fun h => h⟩

/-- Witness for C5 at two concrete calls. -/
theorem get_console_fresh_identical_witness :
    (get_console 0).theme = (get_console 1).theme ∧
    (get_console 0).highlight = (get_console 1).highlight ∧
    (get_console 0).id ≠ (get_console 1).id :=
  ⟨(get_console_fresh_identical 0 1).2.2.1,
   (get_console_fresh_identical 0 1).2.2.2.1,
   (get_console_fresh_identical 0 1).2.2.2.2 (by decide)⟩

/-- Claim C6: Every key of the style table resolves to a non-empty style
specification containing a color token. -/
theorem toolkit_theme_specs_colored :
    ∀ kv ∈ toolkit_theme, kv.2 ≠ "" ∧ hasColorToken kv.2 = true := by
  decide

/-- Witness for C6 at a concrete table entry. -/
theorem toolkit_theme_specs_colored_witness :
    ("success", "bold #00FF88") ∈ toolkit_theme ∧
    ("bold #00FF88" ≠ "" ∧ hasColorToken "bold #00FF88" = true) :=
  ⟨by decide,
   toolkit_theme_specs_colored ("success", "bold #00FF88") (by decide)⟩

/-- Claim C7: The icon table maps `"warning"` and `"drift"` to the same
glyph: the two lookups return equal strings. -/
theorem warning_drift_same_glyph :
    resolve_icon "warning" = resolve_icon "drift" := by
  decide

/-- Claim C8: After any sequence of calls to `get_console`, `print_status`
and `print_section` from the loaded module state, the three tables are
unchanged: they still equal the constants constructed at load time. -/
theorem tables_immutable (ops : List Op) :
    (run initState ops).theme = toolkit_theme ∧
    (run initState ops).icons = STATUS_ICONS ∧
    (run initState ops).barStyle = PROGRESS_BAR_STYLE := by
  suffices h : ∀ s : ModuleState, (run s ops).theme = s.theme ∧
      (run s ops).icons = s.icons ∧ (run s ops).barStyle = s.barStyle from
    h initState
  induction ops with
  | nil => exact fun s => ⟨rfl, rfl, rfl⟩
  | cons op ops ih =>
    intro s
    have hop : (runOp s op).theme = s.theme ∧ (runOp s op).icons = s.icons ∧
        (runOp s op).barStyle = s.barStyle := by
      cases op <;> exact ⟨rfl, rfl, rfl⟩
    have h := ih (runOp s op)
    exact ⟨h.1.trans hop.1, h.2.1.trans hop.2.1, h.2.2.trans hop.2.2⟩

/-- Claim C9: The status kinds `"learning"`, `"drift"`, `"ship"`,
`"thought"` and `"lambda"` are icon-table keys but not style-table keys,
so `print_status` forwards a style name the theme does not define while
still prefixing a non-empty icon. -/
theorem icon_only_status_kinds :
    ∀ k ∈ (["learning", "drift", "ship", "thought", "lambda"] : List String),
      k ∈ dictKeys STATUS_ICONS ∧
      k ∉ dictKeys toolkit_theme ∧
      resolve_icon k ≠ "" ∧
      ∀ message, print_status message k =
        [⟨resolve_icon k ++ " " ++ message, k⟩] := by
  intro k hk
  fin_cases hk <;>
    exact ⟨by decide, by decide, by decide, fun message => rfl⟩

/-- Witness for C9 at the kind `"drift"` and a concrete message. -/
theorem icon_only_status_kinds_witness :
    "drift" ∈ dictKeys STATUS_ICONS ∧
    "drift" ∉ dictKeys toolkit_theme ∧
    resolve_icon "drift" ≠ "" ∧
    print_status "msg" "drift" =
      [⟨resolve_icon "drift" ++ " " ++ "msg", "drift"⟩] :=
  ⟨(icon_only_status_kinds "drift" (by decide)).1,
   (icon_only_status_kinds "drift" (by decide)).2.1,
   (icon_only_status_kinds "drift" (by decide)).2.2.1,
   (icon_only_status_kinds "drift" (by decide)).2.2.2 "msg"⟩

/-- Claim C10: The print helpers are deterministic: the writes a call
appends to the log depend only on the arguments and the (constant) icon
table — two states agreeing on the tables produce identical new writes,
whatever their logs or allocation counters. -/
theorem print_helpers_deterministic (s1 s2 : ModuleState) (op : Op)
    (h : s1.icons = s2.icons) :
    ((runOp s1 op).log).drop s1.log.length =
      ((runOp s2 op).log).drop s2.log.length := by
  cases op with
  | getConsole => simp [runOp, List.drop_length]
  | printStatus message status => simp [runOp, List.drop_left, h]
  | printSection title body => simp [runOp, List.drop_left]

/-- A second module state sharing only the icon table with `initState`,
used to witness determinism. -/
def altState : ModuleState :=
  ⟨[], STATUS_ICONS, [], [⟨"x", "y"⟩], 7⟩

/-- Witness for C10: the same call from two different states appends the
same write. -/
theorem print_helpers_deterministic_witness :
    initState.icons = altState.icons ∧
    ((runOp initState (.printStatus "hi" "success")).log).drop
        initState.log.length =
      ((runOp altState (.printStatus "hi" "success")).log).drop
        altState.log.length :=
  ⟨rfl,
   print_helpers_deterministic initState altState
     (.printStatus "hi" "success") rfl⟩

end RyCode
